import Mathlib

/-!
Shallow embedding of `src/app.py` (AUTOMATE_SHORTS_AGENT), a short-form
video generator: narration synthesis, silent base video composition,
word-timing extraction, per-word subtitle rendering, final mux, cleanup.

Times are modelled as rationals, pixel buffers as abstract frame values
carrying the list of text-drawing operations applied to them, and the
file system as a partial map from paths to byte lists.
-/

set_option autoImplicit false

namespace App

/-! ## Configuration constants (src/app.py lines 11-32) -/

def ELEVENLABS_API_KEY : String := "ELEVEN_LABS_API_KEY"

/-- The string `main` compares the API key against before starting the pipeline
(src/app.py line 102). -/
def API_KEY_PLACEHOLDER_TESTED : String := "YOUR_ELEVENLABS_API_KEY"

def OUTPUT_VIDEO_FILE : String := "final_short.mp4"

def TEMP_SILENT_VIDEO_FILE : String := "temp_silent_video.mp4"

def TEMP_SUBTITLED_VIDEO_FILE : String := "temp_subtitled_video.mp4"

/-- Default `output_path` argument of `generate_narration`. -/
def NARRATION_AUDIO_FILE : String := "narration.mp3"

def VIDEO_WIDTH : ℤ := 1080

def VIDEO_HEIGHT : ℤ := 1920

def FPS : ℕ := 24

def FONT_COLOR : ℕ × ℕ × ℕ := (255, 255, 255)

def FONT_THICKNESS : ℕ := 3

def SHADOW_COLOR : ℕ × ℕ × ℕ := (0, 0, 0)

def SHADOW_THICKNESS : ℕ := 6

/-! ## Data model -/

/-- One word-timing record produced by `get_word_timestamps`:
`{'word': ..., 'start': ..., 'end': ...}`. -/
structure WordTiming where
  word : String
  start : ℚ
  «end» : ℚ
  deriving DecidableEq

/-- One `cv2.putText` call recorded on a frame: the text, its origin, the
color and the stroke thickness (the font and scale are global constants and
carry no information). -/
structure TextOp where
  text : String
  org : ℤ × ℤ
  color : ℕ × ℕ × ℕ
  thickness : ℕ
  deriving DecidableEq

/-- A video frame: an abstract pixel buffer (`pixels` identifies the original
content) together with the text-drawing operations applied to it. -/
structure Frame where
  pixels : ℕ
  ops : List TextOp
  deriving DecidableEq

/-- `cv2.putText(frame, ...)` mutates the frame by drawing text on it;
modelled as appending the recorded operation. -/
def putText (frame : Frame) (op : TextOp) : Frame :=
  { frame with ops := frame.ops ++ [op] }

/-! ## Subtitle renderer (src/app.py lines 71-98) -/

/-- The linear scan of `draw_subtitles_on_video`: the first record with
`start <= current_time < end`, or none (the loop breaks at the first match). -/
def findActiveWord : List WordTiming → ℚ → Option WordTiming
  | [], _ => none
  | w :: rest, t =>
    if w.start ≤ t ∧ t < w.«end» then some w else findActiveWord rest t

/-- The two `cv2.putText` calls for an active word: text size measured by the
external `cv2.getTextSize` (the `measure` parameter), origin centered on the
frame with Python floor division, a thick dark outline pass followed by a
thinner light fill pass. -/
def drawWordOn (measure : String → ℤ × ℤ) (frame : Frame) (active_word : String) : Frame :=
  let text_size := measure active_word
  let text_x := Int.fdiv (VIDEO_WIDTH - text_size.1) 2
  let text_y := Int.fdiv (VIDEO_HEIGHT + text_size.2) 2
  let f1 := putText frame ⟨active_word, (text_x, text_y), SHADOW_COLOR, SHADOW_THICKNESS⟩
  putText f1 ⟨active_word, (text_x, text_y), FONT_COLOR, FONT_THICKNESS⟩

/-- Body of the per-frame loop of `draw_subtitles_on_video`: find the active
word at timestamp `t`; Python's `if active_word:` is a truthiness test, so
both `None` and the empty string leave the frame unmodified. -/
def renderFrame (measure : String → ℤ × ℤ) (word_timestamps : List WordTiming)
    (t : ℚ) (frame : Frame) : Frame :=
  match findActiveWord word_timestamps t with
  | some w => if w.word = "" then frame else drawWordOn measure frame w.word
  | none => frame

/-- The frame loop: `frame_count` starts at 0 and increments once per frame;
`current_time = frame_count / FPS`. -/
def drawFrames (measure : String → ℤ × ℤ) (word_timestamps : List WordTiming) :
    ℕ → List Frame → List Frame
  | _, [] => []
  | frame_count, frame :: rest =>
    renderFrame measure word_timestamps ((frame_count : ℚ) / (FPS : ℚ)) frame ::
      drawFrames measure word_timestamps (frame_count + 1) rest

/-- `draw_subtitles_on_video`, as a function from the input video's frames to
the output video's frames. -/
def draw_subtitles_on_video (measure : String → ℤ × ℤ) (frames : List Frame)
    (word_timestamps : List WordTiming) : List Frame :=
  drawFrames measure word_timestamps 0 frames

/-! ## Basic lemmas about the active-word scan -/

theorem findActiveWord_eq_some {ws : List WordTiming} {t : ℚ} {r : WordTiming}
    (h : findActiveWord ws t = some r) : r.start ≤ t ∧ t < r.«end» := by
  induction ws with
  | nil => simp [findActiveWord] at h
  | cons w rest ih =>
    by_cases hc : w.start ≤ t ∧ t < w.«end»
    · simp [findActiveWord, hc] at h
      exact h ▸ hc
    · simp [findActiveWord, hc] at h
      exact ih h

theorem findActiveWord_append_of_none {ws1 : List WordTiming} {t : ℚ}
    (h : ∀ w ∈ ws1, ¬(w.start ≤ t ∧ t < w.«end»)) (ws2 : List WordTiming) :
    findActiveWord (ws1 ++ ws2) t = findActiveWord ws2 t := by
  induction ws1 with
  | nil => rfl
  | cons w rest ih =>
    have hw := h w (by simp)
    simp only [List.cons_append, findActiveWord, if_neg hw]
    exact ih (fun x hx => h x (by simp [hx]))

theorem findActiveWord_none {ws : List WordTiming} {t : ℚ}
    (h : ∀ w ∈ ws, ¬(w.start ≤ t ∧ t < w.«end»)) :
    findActiveWord ws t = none := by
  have := findActiveWord_append_of_none h []
  simpa using this

theorem findActiveWord_of_filter_singleton {ws : List WordTiming} {t : ℚ} {r : WordTiming}
    (h : ws.filter (fun w => decide (w.start ≤ t ∧ t < w.«end»)) = [r]) :
    findActiveWord ws t = some r := by
  induction ws with
  | nil => simp at h
  | cons w rest ih =>
    by_cases hc : w.start ≤ t ∧ t < w.«end»
    · simp only [List.filter_cons, decide_eq_true hc, if_pos] at h
      have hw : w = r := List.head_eq_of_cons_eq h
      subst hw
      simp [findActiveWord, hc]
    · simp only [List.filter_cons, decide_eq_false hc] at h
      simp only [Bool.false_eq_true, if_false] at h
      simp [findActiveWord, hc]
      exact ih h

theorem renderFrame_of_none {measure : String → ℤ × ℤ} {ws : List WordTiming}
    {t : ℚ} (frame : Frame) (h : findActiveWord ws t = none) :
    renderFrame measure ws t frame = frame := by
  simp [renderFrame, h]

theorem drawFrames_nil_timestamps (measure : String → ℤ × ℤ) :
    ∀ (i : ℕ) (frames : List Frame), drawFrames measure [] i frames = frames := by
  intro i frames
  induction frames generalizing i with
  | nil => rfl
  | cons f rest ih =>
    simp [drawFrames, renderFrame, findActiveWord, ih]

/-! ## Silent base video composition (src/app.py lines 46-61)

Only the geometry is embedded: the source image's size goes through the
crop chosen by the aspect-ratio test (Python `int()` truncates the computed
crop dimension; all quantities are nonnegative, so `int()` is the floor)
and then through the aspect-preserving resize to the target height. -/

def target_aspect : ℚ := (VIDEO_WIDTH : ℚ) / (VIDEO_HEIGHT : ℚ)

/-- Size of `background_clip` after the crop branch of
`create_silent_base_video`: wider than the target aspect crops the width to
`int(h * target_aspect)` (left/right crop), otherwise the height is cropped
to `int(w / target_aspect)` (top/bottom crop). -/
def croppedSize (w h : ℕ) : ℤ × ℤ :=
  if (w : ℚ) / (h : ℚ) > target_aspect then
    (⌊(h : ℚ) * target_aspect⌋, (h : ℤ))
  else
    ((w : ℤ), ⌊(w : ℚ) / target_aspect⌋)

/-- Modelled from the spec: the moviepy `resize(height=VIDEO_HEIGHT)` call is
external library code not under src/; per the spec it resizes to the target
height, which preserves aspect ratio, so the width scales by the same exact
rational factor. -/
def resizeToHeight (size : ℤ × ℤ) : ℚ × ℚ :=
  ((size.1 : ℚ) * (VIDEO_HEIGHT : ℚ) / (size.2 : ℚ), (VIDEO_HEIGHT : ℚ))

/-- The output resolution of `create_silent_base_video` for a source image of
size `w × h`. -/
def create_silent_base_video_size (w h : ℕ) : ℚ × ℚ :=
  resizeToHeight (croppedSize w h)

/-! ## Narration synthesis (src/app.py lines 36-44) -/

/-- A file system: paths to file contents (byte lists). -/
def FS : Type := String → Option (List ℕ)

def fsWrite (fs : FS) (path : String) (data : List ℕ) : FS :=
  fun q => if q = path then some data else fs q

/-- How `generate_narration` finishes: `sys.exit(1)` from the except branch,
or a normal return of the output path. -/
inductive NarrationResult where
  | exited (code : ℕ)
  | returned (path : String)
  deriving DecidableEq

/-- `generate_narration`: the whole body is inside one try/except. The TTS
call is external, modelled by its result `synth` (audio bytes or an
exception). On success the bytes are written to `output_path`, which is
returned; on any exception the error is logged and the process exits with
status 1 (no retry, no partial result). -/
def generate_narration (synth : Except String (List ℕ)) (fs : FS)
    (output_path : String) : FS × NarrationResult :=
  match synth with
  | Except.ok audio => (fsWrite fs output_path audio, NarrationResult.returned output_path)
  | Except.error _ => (fs, NarrationResult.exited 1)

/-! ## Cleanup (src/app.py lines 126-130) and the success-path file effects -/

/-- `if os.path.exists(p): os.remove(p)` — delete the file only when it
exists; missing files are left alone with no error. -/
def removeIfExists (fs : FS) (path : String) : FS :=
  if (fs path).isSome then (fun q => if q = path then none else fs q) else fs

/-- Step 6 of `main`: the three temporary artifacts are removed in order
(narration audio, silent video, subtitled video). -/
def cleanupTempFiles (fs : FS) : FS :=
  removeIfExists
    (removeIfExists (removeIfExists fs NARRATION_AUDIO_FILE) TEMP_SILENT_VIDEO_FILE)
    TEMP_SUBTITLED_VIDEO_FILE

/-- The file-system effect of a successful run of `main`: the narration
audio, the silent video, the subtitled video and the final output are
written in pipeline order, then cleanup runs. -/
def mainSuccessRun (fs : FS) (narr silent subbed finalv : List ℕ) : FS :=
  cleanupTempFiles
    (fsWrite
      (fsWrite
        (fsWrite (fsWrite fs NARRATION_AUDIO_FILE narr) TEMP_SILENT_VIDEO_FILE silent)
        TEMP_SUBTITLED_VIDEO_FILE subbed)
      OUTPUT_VIDEO_FILE finalv)

/-! ## The API-key guard of `main` (src/app.py line 102) -/

inductive ApiKeyCheck where
  | earlyExit
  | proceed
  deriving DecidableEq

/-- The first statement of `main`:
`if ELEVENLABS_API_KEY == "YOUR_ELEVENLABS_API_KEY": sys.exit(...)`. -/
def mainApiKeyCheck (key : String) : ApiKeyCheck :=
  if key = API_KEY_PLACEHOLDER_TESTED then ApiKeyCheck.earlyExit else ApiKeyCheck.proceed

/-! ## Concrete inputs used by witnesses and counterexamples -/

/-- A concrete text-measuring function standing in for `cv2.getTextSize`. -/
def measure0 : String → ℤ × ℤ := fun s => ((s.length : ℤ) * 40, 80)

def frame0 : Frame := ⟨0, []⟩

def fs0 : FS := fun _ => none

def emptyWord : String := ""

def wordA : String := "A"

def wordB : String := "B"

def wordHI : String := "HI"

def wordHELLO : String := "HELLO"

def wordWORLD : String := "WORLD"

def errMsg0 : String := "network failure"

def audio0 : List ℕ := [1, 2, 3]

/-! ## Claims -/

/-- C1: the spec claims that leaving the API key as the placeholder value
shipped in the source causes an explicit early exit before any pipeline
work. The shipped value is `"ELEVEN_LABS_API_KEY"`, but the guard in `main`
compares against `"YOUR_ELEVENLABS_API_KEY"`, so with the shipped
placeholder the guard does not fire and `main` proceeds into the pipeline. -/
theorem C1_shipped_placeholder_passes_guard :
    mainApiKeyCheck ELEVENLABS_API_KEY = ApiKeyCheck.proceed ∧
    ELEVENLABS_API_KEY ≠ API_KEY_PLACEHOLDER_TESTED := by
  constructor
  · decide
  · decide

/-- C3: when the frame timestamp lies outside every half-open
`[start, end)` interval, the renderer emits the frame unmodified; in
particular, with an empty word-timing sequence every output frame equals
the corresponding input frame. -/
theorem C3_no_active_word_frame_unmodified :
    (∀ (measure : String → ℤ × ℤ) (ws : List WordTiming) (t : ℚ) (f : Frame),
        (∀ w ∈ ws, ¬(w.start ≤ t ∧ t < w.«end»)) → renderFrame measure ws t f = f) ∧
    (∀ (measure : String → ℤ × ℤ) (frames : List Frame),
        draw_subtitles_on_video measure frames [] = frames) := by
  constructor
  · intro measure ws t f h
    exact renderFrame_of_none f (findActiveWord_none h)
  · intro measure frames
    exact drawFrames_nil_timestamps measure 0 frames

theorem C3_witness :
    renderFrame measure0 [⟨wordHI, 1, 2⟩] 0 frame0 = frame0 ∧
    draw_subtitles_on_video measure0 [frame0] [] = [frame0] :=
  ⟨C3_no_active_word_frame_unmodified.1 measure0 [⟨wordHI, 1, 2⟩] 0 frame0 (by decide),
   C3_no_active_word_frame_unmodified.2 measure0 [frame0]⟩

/-- C4: a word-timing record with `start == end` has an empty half-open
interval, so the linear scan never selects it as the active word for any
timestamp. -/
theorem C4_empty_interval_never_selected (ws : List WordTiming) (t : ℚ)
    (r : WordTiming) (h : r.start = r.«end») : findActiveWord ws t ≠ some r := by
  intro hsel
  obtain ⟨h1, h2⟩ := findActiveWord_eq_some hsel
  exact lt_irrefl _ (h ▸ lt_of_le_of_lt h1 h2)

theorem C4_witness : findActiveWord [⟨wordA, 1, 1⟩] 0 ≠ some ⟨wordA, 1, 1⟩ :=
  C4_empty_interval_never_selected [⟨wordA, 1, 1⟩] 0 ⟨wordA, 1, 1⟩ rfl

/-- C8: subtitle rendering is deterministic — two runs of the renderer on
the same input frames and the same word-timing sequence produce identical
output frames. -/
theorem C8_rendering_deterministic (measure : String → ℤ × ℤ)
    (frames : List Frame) (ws : List WordTiming) (out1 out2 : List Frame)
    (h1 : out1 = draw_subtitles_on_video measure frames ws)
    (h2 : out2 = draw_subtitles_on_video measure frames ws) : out1 = out2 :=
  h1.trans h2.symm

theorem C8_witness :
    draw_subtitles_on_video measure0 [frame0] [⟨wordA, 0, 1⟩] =
      draw_subtitles_on_video measure0 [frame0] [⟨wordA, 0, 1⟩] :=
  C8_rendering_deterministic measure0 [frame0] [⟨wordA, 0, 1⟩] _ _ rfl rfl

/-- C9: when the active record matched for a timestamp has the empty string
as its word text, Python's truthiness test skips the drawing, so the frame
is emitted unmodified even though the timestamp lies inside that record's
interval. -/
theorem C9_empty_word_leaves_frame_unmodified (measure : String → ℤ × ℤ)
    (ws : List WordTiming) (t : ℚ) (f : Frame) (r : WordTiming)
    (hsel : findActiveWord ws t = some r) (hword : r.word = "") :
    (r.start ≤ t ∧ t < r.«end») ∧ renderFrame measure ws t f = f := by
  refine ⟨findActiveWord_eq_some hsel, ?_⟩
  simp [renderFrame, hsel, hword]

theorem C9_witness :
    ((0 : ℚ) ≤ 0 ∧ (0 : ℚ) < 1) ∧
    renderFrame measure0 [⟨emptyWord, 0, 1⟩] 0 frame0 = frame0 :=
  C9_empty_word_leaves_frame_unmodified measure0 [⟨emptyWord, 0, 1⟩] 0 frame0
    ⟨emptyWord, 0, 1⟩ (by decide) rfl

/-- C10: when a timestamp lies inside the intervals of several records, the
scan selects the record occurring earliest in sequence order and all later
matching records are ignored — the output is as if only the earliest
matching record were present, and (for a non-empty word) exactly its word
is drawn. -/
theorem C10_first_matching_record_wins (measure : String → ℤ × ℤ)
    (ws1 ws2 : List WordTiming) (r : WordTiming) (t : ℚ) (f : Frame)
    (h1 : ∀ w ∈ ws1, ¬(w.start ≤ t ∧ t < w.«end»))
    (h2 : r.start ≤ t) (h3 : t < r.«end») :
    findActiveWord (ws1 ++ r :: ws2) t = some r ∧
    renderFrame measure (ws1 ++ r :: ws2) t f = renderFrame measure [r] t f ∧
    (r.word ≠ "" →
      renderFrame measure (ws1 ++ r :: ws2) t f = drawWordOn measure f r.word) := by
  have hsel : findActiveWord (ws1 ++ r :: ws2) t = some r := by
    rw [findActiveWord_append_of_none h1]
    simp [findActiveWord, h2, h3]
  have hone : findActiveWord [r] t = some r := by
    simp [findActiveWord, h2, h3]
  refine ⟨hsel, ?_, ?_⟩
  · simp [renderFrame, hsel, hone]
  · intro hword
    simp [renderFrame, hsel, hword]

theorem C10_witness :
    findActiveWord [⟨wordA, 0, 2⟩, ⟨wordB, 1, 3⟩] 1 = some ⟨wordA, 0, 2⟩ ∧
    renderFrame measure0 [⟨wordA, 0, 2⟩, ⟨wordB, 1, 3⟩] 1 frame0 =
      drawWordOn measure0 frame0 wordA := by
  have h := C10_first_matching_record_wins measure0 [] [⟨wordB, 1, 3⟩]
    ⟨wordA, 0, 2⟩ 1 frame0 (by simp) (by decide) (by decide)
  exact ⟨h.1, h.2.2 (by decide)⟩

/-- C6: `generate_narration` wraps the whole synthesis in one try/except —
any exception leads to a logged message and `sys.exit(1)` with the file
system untouched (no retry, no partial result), while on success the audio
bytes are written to the output path and that path is returned. -/
theorem C6_narration_error_handling (synth : Except String (List ℕ)) (fs : FS)
    (output_path : String) :
    (∀ e, synth = Except.error e →
        generate_narration synth fs output_path = (fs, NarrationResult.exited 1)) ∧
    (∀ audio, synth = Except.ok audio →
        (generate_narration synth fs output_path).2 = NarrationResult.returned output_path ∧
        ((generate_narration synth fs output_path).1) output_path = some audio) := by
  constructor
  · rintro e rfl
    rfl
  · rintro audio rfl
    exact ⟨rfl, by simp [generate_narration, fsWrite]⟩

theorem C6_witness :
    generate_narration (Except.error errMsg0) fs0 NARRATION_AUDIO_FILE =
      (fs0, NarrationResult.exited 1) ∧
    ((generate_narration (Except.ok audio0) fs0 NARRATION_AUDIO_FILE).1)
      NARRATION_AUDIO_FILE = some audio0 :=
  ⟨(C6_narration_error_handling (Except.error errMsg0) fs0 NARRATION_AUDIO_FILE).1 errMsg0 rfl,
   ((C6_narration_error_handling (Except.ok audio0) fs0 NARRATION_AUDIO_FILE).2 audio0 rfl).2⟩

/-- C7: cleanup deletes each temporary artifact when it exists and is a
no-op (raising no error) when it does not; after a successful run none of
the three temporary files exist while the final output file does. -/
theorem C7_cleanup_behavior (fs : FS) (narr silent subbed finalv : List ℕ) :
    (mainSuccessRun fs narr silent subbed finalv NARRATION_AUDIO_FILE = none ∧
     mainSuccessRun fs narr silent subbed finalv TEMP_SILENT_VIDEO_FILE = none ∧
     mainSuccessRun fs narr silent subbed finalv TEMP_SUBTITLED_VIDEO_FILE = none ∧
     mainSuccessRun fs narr silent subbed finalv OUTPUT_VIDEO_FILE = some finalv) ∧
    (∀ (g : FS) (p : String), g p = none → removeIfExists g p = g) ∧
    (∀ (g : FS) (p : String), (removeIfExists g p) p = none) := by
  refine ⟨⟨?_, ?_, ?_, ?_⟩, ?_, ?_⟩
  · simp +decide [mainSuccessRun, cleanupTempFiles, removeIfExists, fsWrite,
      NARRATION_AUDIO_FILE, TEMP_SILENT_VIDEO_FILE, TEMP_SUBTITLED_VIDEO_FILE,
      OUTPUT_VIDEO_FILE]
  · simp +decide [mainSuccessRun, cleanupTempFiles, removeIfExists, fsWrite,
      NARRATION_AUDIO_FILE, TEMP_SILENT_VIDEO_FILE, TEMP_SUBTITLED_VIDEO_FILE,
      OUTPUT_VIDEO_FILE]
  · simp +decide [mainSuccessRun, cleanupTempFiles, removeIfExists, fsWrite,
      NARRATION_AUDIO_FILE, TEMP_SILENT_VIDEO_FILE, TEMP_SUBTITLED_VIDEO_FILE,
      OUTPUT_VIDEO_FILE]
  · simp +decide [mainSuccessRun, cleanupTempFiles, removeIfExists, fsWrite,
      NARRATION_AUDIO_FILE, TEMP_SILENT_VIDEO_FILE, TEMP_SUBTITLED_VIDEO_FILE,
      OUTPUT_VIDEO_FILE]
  · intro g p h
    simp [removeIfExists, h]
  · intro g p
    by_cases h : (g p).isSome
    · simp [removeIfExists, h]
    · simp only [removeIfExists, h, if_false, Bool.false_eq_true]
      exact Option.not_isSome_iff_eq_none.mp h

theorem C7_witness :
    (mainSuccessRun fs0 audio0 audio0 audio0 audio0 NARRATION_AUDIO_FILE = none ∧
     mainSuccessRun fs0 audio0 audio0 audio0 audio0 TEMP_SILENT_VIDEO_FILE = none ∧
     mainSuccessRun fs0 audio0 audio0 audio0 audio0 TEMP_SUBTITLED_VIDEO_FILE = none ∧
     mainSuccessRun fs0 audio0 audio0 audio0 audio0 OUTPUT_VIDEO_FILE = some audio0) ∧
    removeIfExists fs0 NARRATION_AUDIO_FILE = fs0 :=
  ⟨(C7_cleanup_behavior fs0 audio0 audio0 audio0 audio0).1,
   (C7_cleanup_behavior fs0 audio0 audio0 audio0 audio0).2.1 fs0 NARRATION_AUDIO_FILE rfl⟩

/-- C2 counterexample: the claim as stated fails when the unique matching
record's word text is the empty string. With the single record
`{word: "", start: 0, end: 1}` the timestamp 0 lies inside exactly one
interval, yet the output frame is the unmodified input frame and not the
input frame with that interval's word drawn (no outline or fill pass is
performed, because `if active_word:` is false for the empty string). -/
theorem C2_counterexample :
    List.filter (fun w => decide (w.start ≤ (0 : ℚ) ∧ (0 : ℚ) < w.«end»))
        [(⟨emptyWord, 0, 1⟩ : WordTiming)] = [(⟨emptyWord, 0, 1⟩ : WordTiming)] ∧
    renderFrame measure0 [⟨emptyWord, 0, 1⟩] 0 frame0 = frame0 ∧
    renderFrame measure0 [⟨emptyWord, 0, 1⟩] 0 frame0 ≠ drawWordOn measure0 frame0 emptyWord := by
  refine ⟨by decide, by decide, by decide⟩

/-- C2 (amended): for a timestamp inside exactly one interval whose record
has a non-empty word text, the scan selects that record (first and only
match of the linear scan) and the output frame is the input frame with
exactly that word drawn — the outline pass followed by the fill pass at the
centered origin, and nothing else. -/
theorem C2_amended_unique_nonempty_match_drawn (measure : String → ℤ × ℤ)
    (ws : List WordTiming) (t : ℚ) (f : Frame) (r : WordTiming)
    (hfilter : ws.filter (fun w => decide (w.start ≤ t ∧ t < w.«end»)) = [r])
    (hword : r.word ≠ "") :
    findActiveWord ws t = some r ∧
    renderFrame measure ws t f = drawWordOn measure f r.word := by
  have hsel := findActiveWord_of_filter_singleton hfilter
  exact ⟨hsel, by simp [renderFrame, hsel, hword]⟩

theorem C2_witness :
    findActiveWord [⟨wordHELLO, 0, 1⟩, ⟨wordWORLD, 1, 2⟩] 0 = some ⟨wordHELLO, 0, 1⟩ ∧
    renderFrame measure0 [⟨wordHELLO, 0, 1⟩, ⟨wordWORLD, 1, 2⟩] 0 frame0 =
      drawWordOn measure0 frame0 wordHELLO :=
  C2_amended_unique_nonempty_match_drawn measure0 [⟨wordHELLO, 0, 1⟩, ⟨wordWORLD, 1, 2⟩]
    0 frame0 ⟨wordHELLO, 0, 1⟩ (by decide) (by decide)

/-- C5 counterexample: a 600 × 1000 source image is wider than the target
aspect ratio, so the width is cropped — to `int(1000 * 1080/1920) = 562`
pixels — and after the aspect-preserving resize to height 1920 the width is
`562 * 1920 / 1000 = 1079.04`, not the configured 1080: the output
resolution is not exactly the configured width × height. -/
theorem C5_counterexample :
    (600 : ℚ) / (1000 : ℚ) > target_aspect ∧
    create_silent_base_video_size 600 1000 ≠ ((VIDEO_WIDTH : ℚ), (VIDEO_HEIGHT : ℚ)) := by
  have hgt : (600 : ℚ) / (1000 : ℚ) > target_aspect := by
    norm_num [target_aspect, VIDEO_WIDTH, VIDEO_HEIGHT]
  refine ⟨hgt, ?_⟩
  have h1 : croppedSize 600 1000 = (562, 1000) := by
    rw [croppedSize, if_pos (by push_cast; exact hgt)]
    norm_num [target_aspect, VIDEO_WIDTH, VIDEO_HEIGHT]
  intro hcontra
  rw [create_silent_base_video_size, h1, resizeToHeight] at hcontra
  have h2 := congrArg Prod.fst hcontra
  norm_num [VIDEO_WIDTH, VIDEO_HEIGHT] at h2

/-- C5 (amended): the crop axis is chosen as claimed — a source wider than
the target aspect keeps its height and shrinks its width (left/right crop),
otherwise it keeps its width and shrinks its height (top/bottom crop) — and
the output height is exactly the configured height; but because the crop
dimension passes through Python `int()` truncation, the output width equals
the configured width exactly when the truncated value is exact (16 divides
h in the width-crop case, 9 divides w in the height-crop case), and
otherwise can deviate from it. -/
theorem C5_amended_crop_axis_and_resolution (w h : ℕ) (hw : 0 < w) (hh : 0 < h) :
    ((w : ℚ) / (h : ℚ) > target_aspect →
        (croppedSize w h).2 = (h : ℤ) ∧ (croppedSize w h).1 ≤ (w : ℤ)) ∧
    (¬((w : ℚ) / (h : ℚ) > target_aspect) →
        (croppedSize w h).1 = (w : ℤ) ∧ (croppedSize w h).2 ≤ (h : ℤ)) ∧
    (create_silent_base_video_size w h).2 = (VIDEO_HEIGHT : ℚ) ∧
    ((w : ℚ) / (h : ℚ) > target_aspect → 16 ∣ h →
        create_silent_base_video_size w h = ((VIDEO_WIDTH : ℚ), (VIDEO_HEIGHT : ℚ))) ∧
    (¬((w : ℚ) / (h : ℚ) > target_aspect) → 9 ∣ w →
        create_silent_base_video_size w h = ((VIDEO_WIDTH : ℚ), (VIDEO_HEIGHT : ℚ))) := by
  have hta : target_aspect = 9 / 16 := by
    norm_num [target_aspect, VIDEO_WIDTH, VIDEO_HEIGHT]
  have hhq : (0 : ℚ) < (h : ℚ) := by exact_mod_cast hh
  have hwq : (0 : ℚ) < (w : ℚ) := by exact_mod_cast hw
  refine ⟨?_, ?_, ?_, ?_, ?_⟩
  · intro hgt
    rw [croppedSize, if_pos hgt]
    refine ⟨rfl, ?_⟩
    have hlt : (h : ℚ) * target_aspect < (w : ℚ) := by
      rw [hta]
      rw [hta, gt_iff_lt, lt_div_iff₀ hhq] at hgt
      linarith
    calc ⌊(h : ℚ) * target_aspect⌋ ≤ ⌊(w : ℚ)⌋ := Int.floor_le_floor hlt.le
      _ = (w : ℤ) := Int.floor_natCast w
  · intro hle
    rw [croppedSize, if_neg hle]
    refine ⟨rfl, ?_⟩
    have hle2 : (w : ℚ) / target_aspect ≤ (h : ℚ) := by
      rw [hta, div_le_iff₀ (by norm_num : (0 : ℚ) < 9 / 16)]
      rw [hta, gt_iff_lt, not_lt, div_le_iff₀ hhq] at hle
      linarith
    calc ⌊(w : ℚ) / target_aspect⌋ ≤ ⌊(h : ℚ)⌋ := Int.floor_le_floor hle2
      _ = (h : ℤ) := Int.floor_natCast h
  · rfl
  · intro hgt hdvd
    obtain ⟨k, rfl⟩ := hdvd
    have hk : (k : ℚ) ≠ 0 := by
      have : 0 < k := by omega
      exact_mod_cast this.ne.symm
    have hcast : ((16 * k : ℕ) : ℚ) * target_aspect = ((9 * k : ℕ) : ℚ) := by
      rw [hta]
      push_cast
      ring
    have hfloor : ⌊((16 * k : ℕ) : ℚ) * target_aspect⌋ = ((9 * k : ℕ) : ℤ) := by
      rw [hcast]
      exact Int.floor_natCast _
    simp only [create_silent_base_video_size, croppedSize, if_pos hgt, resizeToHeight,
      hfloor, Prod.mk.injEq]
    refine ⟨?_, trivial⟩
    show (((9 * k : ℕ) : ℤ) : ℚ) * (VIDEO_HEIGHT : ℚ) / (((16 * k : ℕ) : ℤ) : ℚ) = (VIDEO_WIDTH : ℚ)
    rw [VIDEO_HEIGHT, VIDEO_WIDTH]
    push_cast
    field_simp
    ring
  · intro hle hdvd
    obtain ⟨m, rfl⟩ := hdvd
    have hm : (m : ℚ) ≠ 0 := by
      have : 0 < m := by omega
      exact_mod_cast this.ne.symm
    have hcast : ((9 * m : ℕ) : ℚ) / target_aspect = ((16 * m : ℕ) : ℚ) := by
      rw [hta]
      push_cast
      field_simp
      ring
    have hfloor : ⌊((9 * m : ℕ) : ℚ) / target_aspect⌋ = ((16 * m : ℕ) : ℤ) := by
      rw [hcast]
      exact Int.floor_natCast _
    simp only [create_silent_base_video_size, croppedSize, if_neg hle, resizeToHeight,
      hfloor, Prod.mk.injEq]
    refine ⟨?_, trivial⟩
    show (((9 * m : ℕ) : ℤ) : ℚ) * (VIDEO_HEIGHT : ℚ) / (((16 * m : ℕ) : ℤ) : ℚ) = (VIDEO_WIDTH : ℚ)
    rw [VIDEO_HEIGHT, VIDEO_WIDTH]
    push_cast
    field_simp
    ring

theorem C5_witness :
    (create_silent_base_video_size 1080 1920).2 = (VIDEO_HEIGHT : ℚ) :=
  (C5_amended_crop_axis_and_resolution 1080 1920 (by decide) (by decide)).2.2.1

end App
